import Mathlib

/-!
Shallow embedding of the four browser chat-storage services
(`BrowserChatMessageStorage`, `BrowserChatHistoryService`,
`BrowserCheckpointService`, `BrowserAgentStateStorage`).

The underlying `localStorage` primitive is modelled per service as the typed
content of the keys the service owns, together with per-key write-failure
flags: a `setItem` on a flagged key throws (e.g. quota exceeded) and leaves
the key unchanged.  Reads of a missing key behave as the source's
`getItem(...) || default` fallbacks.  Exceptions are modelled with `Except`;
because a JS exception does not roll back earlier successful `setItem`s,
every mutating operation returns the storage state next to the
`Except`-result, on the error path as well.

Strings are modelled as `List Char`; epoch-millisecond timestamps as `Nat`
(`Date.now()` is passed in explicitly as `now`).
-/

/-- JavaScript primitive values occurring in this storage layer:
non-negative integers (ids, epoch timestamps) and strings. -/
inductive JSVal where
  | num (n : Nat)
  | str (s : List Char)
  deriving DecidableEq

/-- JS truthiness for the values above: `0` and the empty string are falsy. -/
def jsTruthy : JSVal → Bool
  | .num n => n != 0
  | .str s => s != []

/-- Decimal rendering of a number, as JS `String(n)` / `n.toString()`. -/
def natToChars (n : Nat) : List Char := (Nat.repr n).data

/-- Stringification of a value interpolated into a template literal. -/
def jsValToChars : JSVal → List Char
  | .num n => natToChars n
  | .str s => s

/-- JS `ToNumber` on a string, restricted to the shapes exercised here: the
empty string converts to 0, a digit string to its decimal value, anything
else to NaN (`none`).  Used to model loose equality `==`. -/
def jsStrToNum? (s : List Char) : Option Nat :=
  if s = [] then some 0
  else if s.all Char.isDigit then
    some (s.foldl (fun a c => a * 10 + (c.toNat - 48)) 0)
  else none

/-- JS loose equality `==` between the modelled values: comparing a number
with a string coerces the string through `ToNumber`. -/
def looseEq : JSVal → JSVal → Bool
  | .num a, .num b => a == b
  | .str a, .str b => a == b
  | .num a, .str b => jsStrToNum? b == some a
  | .str a, .num b => jsStrToNum? a == some b

/-- JS `a || b` for an optional number: `0` and an absent value fall through
to the default. -/
def natOr (v : Option Nat) (d : Nat) : Nat :=
  match v with
  | some n => if n = 0 then d else n
  | none => d

/-- JS `a || b` for an optional string against a string default. -/
def strOr (v : Option (List Char)) (d : List Char) : List Char :=
  match v with
  | some s => if s = [] then d else s
  | none => d

/-- JS `a || b` where both operands are optional strings. -/
def strOrOpt (a b : Option (List Char)) : Option (List Char) :=
  match a with
  | some s => if s = [] then b else some s
  | none => b

/-- JS regex `.` with default flags: any character except a line terminator. -/
def jsDot (c : Char) : Bool :=
  !(c == '\n' || c == '\r' || c == '\u2028' || c == '\u2029')

/-- JS regex `\s`: whitespace and line terminators. -/
def jsWs (c : Char) : Bool :=
  c == ' ' || c == '\t' || c == '\n' || c == '\r' || c == '\x0b' || c == '\x0c' ||
    c == '\u00a0' || c == '\u2028' || c == '\u2029' || c == '\ufeff'

/-- Completion of the title regex `^(.{1,100})(\s.*|$)` once the first group
has consumed `k` characters: the alternative `\s.*` is tried first (one
whitespace character, then a maximal greedy run of `.`), then `$`; returns
the end position of the whole match. -/
def titleTailMatch (content : List Char) (k : Nat) : Option Nat :=
  match content.drop k with
  | [] => some k
  | c :: rest => if jsWs c then some (k + 1 + (rest.takeWhile jsDot).length) else none

/-- Greedy backtracking of the first group `.{1,100}`: candidate lengths are
tried from the largest down to 1; returns group-1 length and match end. -/
def titleMatchFrom (content : List Char) : Nat → Option (Nat × Nat)
  | 0 => none
  | k + 1 =>
    match titleTailMatch content (k + 1) with
    | some e => some (k + 1, e)
    | none => titleMatchFrom content k

/-- `content.replace(/^(.{1,100})(\s.*|$)/, (_, a) => a)` from `storeChat`
(part_002 lines 119-124): the first match is replaced by its first group and
any text after the match is kept; with no match the content is returned
unchanged.  The first group consists of `.`-matched characters only, so its
candidate lengths are bounded by the leading run of non-terminators. -/
def deriveTitle (content : List Char) : List Char :=
  match titleMatchFrom content (min 100 (content.takeWhile jsDot).length) with
  | some (k, e) => content.take k ++ content.drop e
  | none => content

/-- Errors thrown by the services.  Constructors stand for the thrown `Error`
objects; the `wrapped*` constructors are the rethrowings with a descriptive
message (e.g. "Failed to store chat message: ...") that keep the cause. -/
inductive JSError where
  | parseFailure
  | quotaExceeded
  | sessionIdRequired
  | invalidMessage
  | noActiveChat
  | msgNotFound (id : JSVal)
  | wrappedStoreChat (cause : JSError)
  | wrappedClearData (cause : JSError)
  deriving DecidableEq

/-- Association-list lookup for a string-keyed family of storage keys. -/
def kvGet {α : Type} (l : List (List Char × α)) (k : List Char) : Option α :=
  (l.find? (fun p => p.1 == k)).map Prod.snd

/-- Association-list update (insert-or-replace) for storage keys. -/
def kvSet {α : Type} : List (List Char × α) → List Char → α → List (List Char × α)
  | [], k, v => [(k, v)]
  | p :: rest, k, v => if p.1 == k then (k, v) :: rest else p :: kvSet rest k v

/-! ## Message Store: `BrowserChatMessageStorage` (src/unnamed/part_002) -/

/-- Session record of the Message Store (`storeSession`, lines 90-103). -/
structure MSSession where
  id : Nat
  title : List Char
  deriving DecidableEq

/-- An entry of `request.messages`; only its `content` is consulted. -/
structure MSReqMessage where
  content : Option (List Char)
  deriving DecidableEq

/-- The `request` argument of `storeChat`; `messages` may be absent. -/
structure MSRequest where
  messages : Option (List MSReqMessage)
  deriving DecidableEq

/-- The fields of the `currentMessage` argument of `storeChat` that the code
reads; the argument itself may be null/undefined (`Option` at the use site). -/
structure MSCurrentMessage where
  id : Option JSVal
  sessionId : Option JSVal
  deriving DecidableEq

/-- Message record written by `storeChat` (lines 133-141).  `id` is always a
number produced by `getNextId`; `sessionId` is the caller's value or the
auto-created session's numeric id. -/
structure MSMessage where
  id : Nat
  sessionId : JSVal
  previousMessageId : Option JSVal
  request : MSRequest
  response : JSVal
  cumulativeInputLength : Nat
  updatedAt : Nat
  deriving DecidableEq

/-- The parsed `<prefix>counters` object; either field may be missing. -/
structure MSCounters where
  sessionId : Option Nat
  messageId : Option Nat
  deriving DecidableEq

/-- Content of the `counters` storage key: absent (`getItem` returns null, or
the stored text is empty and hence falsy), text that `JSON.parse` throws on,
or a parsed counters object. -/
inductive MSStoredCounters where
  | absent
  | corrupt
  | val (c : MSCounters)
  deriving DecidableEq

/-- The `type` argument of `getNextId`. -/
inductive CounterType where
  | sessionId
  | messageId
  deriving DecidableEq

/-- `counters[type]`. -/
def MSCounters.get (c : MSCounters) : CounterType → Option Nat
  | .sessionId => c.sessionId
  | .messageId => c.messageId

/-- `counters[type] = v`. -/
def MSCounters.set (c : MSCounters) (t : CounterType) (v : Nat) : MSCounters :=
  match t with
  | .sessionId => { c with sessionId := some v }
  | .messageId => { c with messageId := some v }

/-- Storage owned by one `BrowserChatMessageStorage` instance: the three keys
`<prefix>sessions`, `<prefix>messages`, `<prefix>counters` (`none` = key
absent), plus one write-failure flag per key. -/
structure MSState where
  sessions : Option (List MSSession)
  messages : Option (List MSMessage)
  counters : MSStoredCounters
  failSessionsWrite : Bool
  failMessagesWrite : Bool
  failCountersWrite : Bool
  deriving DecidableEq

/-- `JSON.parse(localStorage.getItem(countersKey) || "{}")` (line 77). -/
def parseCounters : MSStoredCounters → Except JSError MSCounters
  | .absent => .ok ⟨none, none⟩
  | .corrupt => .error .parseFailure
  | .val c => .ok c

/-- `counters[type] || 1` (line 78): a stored 0 also falls back to 1. -/
def counterOr1 (v : Option Nat) : Nat :=
  match v with
  | some n => if n = 0 then 1 else n
  | none => 1

/-- `getNextId` (lines 75-82): parse the counters key, read the counter with
fallback 1, persist the incremented counter, return the id.  A parse failure
or a failed counters write propagates as a thrown error; the key keeps its
value on failure. -/
def getNextId (st : MSState) (t : CounterType) : Except JSError Nat × MSState :=
  match parseCounters st.counters with
  | .error e => (.error e, st)
  | .ok c =>
    let nextId := counterOr1 (c.get t)
    if st.failCountersWrite then (.error .quotaExceeded, st)
    else (.ok nextId, { st with counters := .val (c.set t (nextId + 1)) })

/-- `storeSession` (lines 90-103): read the sessions list, allocate the next
session id (which persists the bumped counter first), push, write the list. -/
def storeSession (st : MSState) (title : List Char) : Except JSError MSSession × MSState :=
  let sessions := st.sessions.getD []
  match getNextId st .sessionId with
  | (.error e, st') => (.error e, st')
  | (.ok id, st') =>
    let session : MSSession := ⟨id, title⟩
    if st'.failSessionsWrite then (.error .quotaExceeded, st')
    else (.ok session, { st' with sessions := some (sessions ++ [session]) })

/-- The title derived by `storeChat` (lines 119-124): the regex-truncated
content of the last entry of `request.messages`, or "New Chat" when the
entry or its content is nullish. -/
def msDerivedTitle (request : MSRequest) : List Char :=
  match (request.messages.bind List.getLast?).bind (·.content) with
  | some content => deriveTitle content
  | none => ("New Chat").data

/-- The `if (!sessionId)` branch of `storeChat` (lines 118-128): create the
session under the derived title. -/
def msAutoCreate (st : MSState) (request : MSRequest) : Except JSError JSVal × MSState :=
  match storeSession st (msDerivedTitle request) with
  | (.error e, st') => (.error e, st')
  | (.ok session, st') => (.ok (.num session.id), st')

/-- Second half of `storeChat`'s `try` block (lines 130-144): read the
messages list, allocate the message id (persisting the bumped counter),
build the record — `previousMessageId` is `currentMessage?.id || null` —
push, and write the list back. -/
def msStoreMessage (st : MSState) (sessionId : JSVal)
    (currentMessage : Option MSCurrentMessage) (request : MSRequest)
    (response : JSVal) (now : Nat) : Except JSError MSMessage × MSState :=
  let messages := st.messages.getD []
  match getNextId st .messageId with
  | (.error e, st') => (.error e, st')
  | (.ok mid, st') =>
    let message : MSMessage :=
      { id := mid
        sessionId := sessionId
        previousMessageId := (currentMessage.bind (·.id)).filter jsTruthy
        request := request
        response := response
        cumulativeInputLength := 0
        updatedAt := now }
    if st'.failMessagesWrite then (.error .quotaExceeded, st')
    else (.ok message, { st' with messages := some (messages ++ [message]) })

/-- Body of `storeChat`'s `try` block (lines 116-146): resolve the session id
(reusing a truthy `currentMessage.sessionId`, else auto-creating a session),
then store the message record. -/
def storeChatBody (st : MSState) (currentMessage : Option MSCurrentMessage)
    (request : MSRequest) (response : JSVal) (now : Nat) :
    Except JSError MSMessage × MSState :=
  let auto : Except JSError JSVal × MSState :=
    match currentMessage.bind (·.sessionId) with
    | some v => if jsTruthy v then (.ok v, st) else msAutoCreate st request
    | none => msAutoCreate st request
  match auto with
  | (.error e, st') => (.error e, st')
  | (.ok sessionId, st') =>
    msStoreMessage st' sessionId currentMessage request response now

/-- `storeChat` (lines 114-150): the whole body runs inside a `try` whose
`catch` rethrows every failure wrapped as "Failed to store chat message:
<cause>".  Keys written before the failing step keep their new values. -/
def storeChat (st : MSState) (currentMessage : Option MSCurrentMessage)
    (request : MSRequest) (response : JSVal) (now : Nat) :
    Except JSError MSMessage × MSState :=
  match storeChatBody st currentMessage request response now with
  | (.error e, st') => (.error (.wrappedStoreChat e), st')
  | ok => ok

/-- `retrieveMessageById` (lines 159-177): linear scan with JS loose equality
`msg.id == id`; a missing match throws a "not found" error which the `catch`
rethrows unwrapped (its message contains "not found"). -/
def retrieveMessageById (st : MSState) (id : JSVal) : Except JSError MSMessage :=
  match (st.messages.getD []).find? (fun msg => looseEq (.num msg.id) id) with
  | some message => .ok message
  | none => .error (.msgNotFound id)

/-- `retrieveMessagesBySession` (lines 185-196): linear scan with JS loose
equality `msg.sessionId == sessionId`. -/
def retrieveMessagesBySession (st : MSState) (sessionId : JSVal) : List MSMessage :=
  (st.messages.getD []).filter (fun msg => looseEq msg.sessionId sessionId)

/-- Third step of `initializeStorage` (lines 58-66): seed the counters key
with `{sessionId: 1, messageId: 1}` when it is absent.  A present-but-corrupt
value is a truthy stored string and is left alone. -/
def initCounters (st : MSState) : Except JSError Unit × MSState :=
  match st.counters with
  | .absent =>
    if st.failCountersWrite then (.error .quotaExceeded, st)
    else (.ok (), { st with counters := .val ⟨some 1, some 1⟩ })
  | _ => (.ok (), st)

/-- Second step of `initializeStorage` (lines 54-56): seed the messages key. -/
def initMessages (st : MSState) : Except JSError Unit × MSState :=
  match st.messages with
  | some _ => initCounters st
  | none =>
    if st.failMessagesWrite then (.error .quotaExceeded, st)
    else initCounters { st with messages := some [] }

/-- `initializeStorage` (lines 45-67): seed each of the three keys that is
absent, in the order sessions, messages, counters. -/
def initializeStorage (st : MSState) : Except JSError Unit × MSState :=
  match st.sessions with
  | some _ => initMessages st
  | none =>
    if st.failSessionsWrite then (.error .quotaExceeded, st)
    else initMessages { st with sessions := some [] }

/-- `clearAllData` (lines 218-227): remove the three keys, then
`initializeStorage`; failures are wrapped as "Failed to clear data: ...". -/
def clearAllData (st : MSState) : Except JSError Unit × MSState :=
  let st0 : MSState :=
    { st with sessions := none, messages := none, counters := .absent }
  match initializeStorage st0 with
  | (.error e, st') => (.error (.wrappedClearData e), st')
  | ok => ok

/-- `k` successive `getNextId` allocations of one counter type (the
allocation pattern behind claims about id monotonicity). -/
def getNextIds (st : MSState) (t : CounterType) : Nat → Except JSError (List Nat) × MSState
  | 0 => (.ok [], st)
  | k + 1 =>
    match getNextId st t with
    | (.error e, st') => (.error e, st')
    | (.ok id, st') =>
      match getNextIds st' t k with
      | (.error e, st'') => (.error e, st'')
      | (.ok ids, st'') => (.ok (id :: ids), st'')

/-! ## Chat History Service: `BrowserChatHistoryService` (src/unnamed/part_005) -/

/-- Session record of the history service (`createSession`, lines 104-111). -/
structure CHSession where
  id : JSVal
  title : List Char
  name : List Char
  lastActivity : Nat
  createdAt : Nat
  previewText : List Char
  deriving DecidableEq

/-- A history-service message: the caller-supplied object together with the
fields the service defaults; `none` = property absent. -/
structure CHMessage where
  id : Option JSVal
  timestamp : Option Nat
  createdAt : Option Nat
  sessionId : Option JSVal
  content : Option (List Char)
  text : Option (List Char)
  deriving DecidableEq

/-- `b.timestamp || b.createdAt || 0`, the recency key used by
`getRecentMessages` and `searchMessages` (lines 266 and 335). -/
def recencyKey (m : CHMessage) : Nat :=
  natOr m.timestamp (natOr m.createdAt 0)

/-- Storage owned by one `BrowserChatHistoryService` instance (default prefix
"tokenRingChat_"): the `<prefix>sessions_v1` key (`none` = absent) and one
`<prefix>history_<sessionId>` key per session, associated by full key
string.  `failHistoryWrites` lists the keys whose `setItem` throws. -/
structure CHState where
  sessions : Option (List CHSession)
  histories : List (List Char × List CHMessage)
  failSessionsWrite : Bool
  failHistoryWrites : List (List Char)
  deriving DecidableEq

/-- The default `storageKeyPrefix` of the history service. -/
def chKeyPrefix : List Char := ("tokenRingChat_").data

/-- `_getSessionKey` (lines 168-175): `<prefix>history_<sessionId>`, the id
stringified into the key.  The operations modelled here test the id's
truthiness before calling it, so its throwing branch is unreachable. -/
def chSessionKey (sessionId : JSVal) : List Char :=
  chKeyPrefix ++ ("history_").data ++ jsValToChars sessionId

/-- `_getMessages` (lines 183-191): a missing key — or a failed read, which
the `catch` silently downgrades — yields the empty list. -/
def chGetMessages (st : CHState) (sessionId : JSVal) : List CHMessage :=
  (kvGet st.histories (chSessionKey sessionId)).getD []

/-- `_saveMessages` (lines 200-206): the `setItem` sits in a `try/catch` that
only logs — on failure the key keeps its pre-call value and no error reaches
the caller. -/
def chSaveMessages (st : CHState) (sessionId : JSVal) (messages : List CHMessage) : CHState :=
  if st.failHistoryWrites.contains (chSessionKey sessionId) then st
  else { st with histories := kvSet st.histories (chSessionKey sessionId) messages }

/-- `_saveSessionsList` (lines 71-77): the same swallow-on-failure pattern
for the sessions-list key. -/
def chSaveSessions (st : CHState) (sessions : List CHSession) : CHState :=
  if st.failSessionsWrite then st
  else { st with sessions := some sessions }

/-- The `previewText` computed by `_updateSessionMetadata` (lines 220-221):
`preview = String(lastMessageText || "").substring(0, 50)` followed by
`preview.length === 50 ? preview + "..." : preview`. -/
def previewOf (lastMessageText : Option (List Char)) : List Char :=
  let preview := (lastMessageText.getD []).take 50
  if preview.length = 50 then preview ++ ("...").data else preview

/-- `_updateSessionMetadata` (lines 215-224): find the session by strict
equality on `id`, refresh `lastActivity`, derive `previewText`, save the
list; a session not in the list leaves the state unchanged. -/
def chUpdateSessionMetadata (st : CHState) (sessionId : JSVal)
    (lastMessageText : Option (List Char)) (now : Nat) : CHState :=
  let sessions := st.sessions.getD []
  match sessions.findIdx? (fun s => s.id == sessionId) with
  | some i =>
    match sessions[i]? with
    | some s =>
      chSaveSessions st
        (sessions.set i { s with lastActivity := now, previewText := previewOf lastMessageText })
    | none => st
  | none => st

/-- `addMessage` (lines 235-253): reject a falsy session id or a non-object
message; build the stored record as the defaulted fields spread-overridden
by the caller's own fields (`{id: ..., timestamp: ..., createdAt: ...,
sessionId, ...message}` — a field present in `message` always wins); append;
save the log (write failure swallowed); update the session metadata with
`message.content || message.text`. -/
def addMessage (st : CHState) (sessionId : JSVal) (message : Option CHMessage)
    (now : Nat) : Except JSError CHMessage × CHState :=
  if !jsTruthy sessionId then (.error .sessionIdRequired, st)
  else
    match message with
    | none => (.error .invalidMessage, st)
    | some m =>
      let messages := chGetMessages st sessionId
      let messageToStore : CHMessage :=
        { id := some (m.id.getD (.str (natToChars now)))
          timestamp := some (m.timestamp.getD now)
          createdAt := some (m.createdAt.getD now)
          sessionId := some (m.sessionId.getD sessionId)
          content := m.content
          text := m.text }
      let st1 := chSaveMessages st sessionId (messages ++ [messageToStore])
      let st2 := chUpdateSessionMetadata st1 sessionId (strOrOpt m.content m.text) now
      (.ok messageToStore, st2)

/-- The stable descending sort by recency key, modelling the (stable) JS
`Array.prototype.sort` with comparator `(a, b) => keyB - keyA`. -/
def sortByRecencyDesc (l : List CHMessage) : List CHMessage :=
  List.insertionSort (fun a b => recencyKey b ≤ recencyKey a) l

/-- `String.prototype.startsWith`, on character lists. -/
def startsWithChars : List Char → List Char → Bool
  | _, [] => true
  | [], _ :: _ => false
  | c :: cs, d :: ds => c == d && startsWithChars cs ds

/-- `String.prototype.includes`, on character lists. -/
def includesChars : List Char → List Char → Bool
  | [], needle => startsWithChars [] needle
  | c :: t, needle => startsWithChars (c :: t) needle || includesChars t needle

/-- Lower-casing, as JS `toLowerCase` on the characters occurring here. -/
def lowerChars (s : List Char) : List Char := s.map Char.toLower

/-- The per-message predicate of `searchMessages` (lines 331-334):
`(m.text || m.content || '').toLowerCase().includes(keyword.toLowerCase())`. -/
def searchPred (lowerKeyword : List Char) (m : CHMessage) : Bool :=
  includesChars (lowerChars (strOr m.text (strOr m.content []))) lowerKeyword

/-- `searchMessages` (lines 325-336): reject a falsy session id; an empty
(falsy) keyword returns `[]`; otherwise filter the session's log by the
case-insensitive substring predicate and sort the matches newest-first. -/
def searchMessages (st : CHState) (keyword : List Char) (sessionId : JSVal) :
    Except JSError (List CHMessage) :=
  if !jsTruthy sessionId then .error .sessionIdRequired
  else if keyword = [] then .ok []
  else .ok (sortByRecencyDesc
    ((chGetMessages st sessionId).filter (searchPred (lowerChars keyword))))

/-! ## Checkpoint Service: `BrowserCheckpointService` (src/BrowserCheckpointService.ts) -/

/-- The `currentMessage` argument of `createCheckpoint`: the `id` field the
code reads, and the rest of the object; the stored deep copy
(`JSON.parse(JSON.stringify(...))`) of a pure value is the value itself. -/
structure CPMessage where
  id : Option JSVal
  payload : JSVal
  deriving DecidableEq

/-- Checkpoint record (lines 134-141). -/
structure Checkpoint where
  id : List Char
  label : List Char
  messageId : Option JSVal
  currentMessage : CPMessage
  timestamp : Nat
  createdAt : Nat
  deriving DecidableEq

/-- Storage owned by one `BrowserCheckpointService` (default prefix
"tokenRingCheckpoints_v1_", no instance segment): one key per session. -/
structure CPState where
  checkpoints : List (List Char × List Checkpoint)
  failWrites : List (List Char)
  deriving DecidableEq

/-- The default checkpoint key prefix. -/
def cpKeyPrefix : List Char := ("tokenRingCheckpoints_v1_").data

/-- `_getStorageKey` (lines 58-67): prefix concatenated with the session id. -/
def cpStorageKey (sessionId : JSVal) : List Char :=
  cpKeyPrefix ++ jsValToChars sessionId

/-- `_getCheckpoints` (lines 75-88): a missing key — or a failed read, which
the `catch` silently downgrades — yields the empty list. -/
def cpGetCheckpoints (st : CPState) (sessionId : JSVal) : List Checkpoint :=
  (kvGet st.checkpoints (cpStorageKey sessionId)).getD []

/-- `_saveCheckpoints` (lines 97-109): the `setItem` sits in a `try/catch`
that only logs — on failure the key keeps its pre-call value and no error
reaches the caller. -/
def cpSaveCheckpoints (st : CPState) (sessionId : JSVal) (cps : List Checkpoint) : CPState :=
  if st.failWrites.contains (cpStorageKey sessionId) then st
  else { st with checkpoints := kvSet st.checkpoints (cpStorageKey sessionId) cps }

/-- Stand-in for `new Date(now).toISOString()` inside the default label: the
claims never inspect the label text, only which label is chosen, so the
timestamp rendering is modelled by its decimal form. -/
def isoChars (now : Nat) : List Char := natToChars now

/-- `createCheckpoint` (lines 121-145): reject a falsy session id or missing
`currentMessage`; build the record (id = `Date.now().toString()`, default
label when the given one is falsy, `timestamp = createdAt = now`), push, and
save — a write failure is swallowed by `_saveCheckpoints`, so the call still
resolves with the new checkpoint. -/
def createCheckpoint (st : CPState) (label : List Char)
    (currentMessage : Option CPMessage) (sessionId : JSVal) (now : Nat) :
    Except JSError Checkpoint × CPState :=
  if !jsTruthy sessionId then (.error .sessionIdRequired, st)
  else
    match currentMessage with
    | none => (.error .noActiveChat, st)
    | some cm =>
      let checkpoints := cpGetCheckpoints st sessionId
      let newCheckpoint : Checkpoint :=
        { id := natToChars now
          label := if label = [] then ("Checkpoint @ ").data ++ isoChars now else label
          messageId := cm.id
          currentMessage := cm
          timestamp := now
          createdAt := now }
      (.ok newCheckpoint, cpSaveCheckpoints st sessionId (checkpoints ++ [newCheckpoint]))

/-- The stable descending sort by `timestamp`, modelling the (stable) JS
`sort((a, b) => b.timestamp - a.timestamp)` of lines 166-168 and 189. -/
def sortCheckpointsDesc (l : List Checkpoint) : List Checkpoint :=
  List.insertionSort (fun a b => Checkpoint.timestamp b ≤ Checkpoint.timestamp a) l

/-- `retrieveCheckpoint` (lines 155-176): a numeric first argument is a
0-based index into the list sorted newest-first by timestamp; any other
value is an exact id match; a miss yields `null` (`none`), not an error. -/
def retrieveCheckpoint (st : CPState) (idOrIdx : JSVal) (sessionId : JSVal) :
    Except JSError (Option Checkpoint) :=
  if !jsTruthy sessionId then .error .sessionIdRequired
  else
    let checkpoints := cpGetCheckpoints st sessionId
    match idOrIdx with
    | .num i => .ok (sortCheckpointsDesc checkpoints)[i]?
    | .str s => .ok (checkpoints.find? (fun cp => cp.id == s))

/-- `listCheckpoint` (lines 185-191): the per-session list newest-first. -/
def listCheckpoint (st : CPState) (sessionId : JSVal) :
    Except JSError (List Checkpoint) :=
  if !jsTruthy sessionId then .error .sessionIdRequired
  else .ok (sortCheckpointsDesc (cpGetCheckpoints st sessionId))

/-- `clearAllCheckpoints` (lines 201-205): replace the list with `[]`. -/
def clearAllCheckpoints (st : CPState) (sessionId : JSVal) :
    Except JSError Unit × CPState :=
  if !jsTruthy sessionId then (.error .sessionIdRequired, st)
  else (.ok (), cpSaveCheckpoints st sessionId [])

/-! ## Agent State Storage: `BrowserAgentStateStorage` (src/BrowserAgentStateStorage.ts) -/

/-- The caller-supplied checkpoint (`NamedAgentCheckpoint`). -/
structure NamedAgentCheckpoint where
  agentId : List Char
  name : List Char
  state : JSVal
  createdAt : Option Nat
  deriving DecidableEq

/-- The stored record (`StoredAgentCheckpoint`, lines 99-105). -/
structure StoredAgentCheckpoint where
  id : List Char
  agentId : List Char
  name : List Char
  state : JSVal
  createdAt : Nat
  deriving DecidableEq

/-- Storage of one `BrowserAgentStateStorage`: the single
`<prefix>checkpoints` key and its write-failure flag. -/
structure AGState where
  checkpoints : Option (List StoredAgentCheckpoint)
  failWrite : Bool
  deriving DecidableEq

/-- `_saveAllCheckpoints` (lines 80-86): the `setItem` sits in a `try/catch`
that only logs — the swallow-on-failure pattern again. -/
def agSaveAll (st : AGState) (cps : List StoredAgentCheckpoint) : AGState :=
  if st.failWrite then st else { st with checkpoints := some cps }

/-- `storeCheckpoint` (lines 94-111): synthesize `<agentId>_<now>`, default
`createdAt` to `now` (JS `||`, so a falsy supplied value also defaults),
push, save (write failure swallowed), and resolve with the id. -/
def agStoreCheckpoint (st : AGState) (cp : NamedAgentCheckpoint) (now : Nat) :
    Except JSError (List Char) × AGState :=
  let checkpoints := st.checkpoints.getD []
  let id := cp.agentId ++ ("_").data ++ natToChars now
  let stored : StoredAgentCheckpoint :=
    { id := id
      agentId := cp.agentId
      name := cp.name
      state := cp.state
      createdAt := natOr cp.createdAt now }
  (.ok id, agSaveAll st (checkpoints ++ [stored]))

/-! ## Derived definitions used by the claims -/

/-- Whether position `k` of `content` holds a `\s` character. -/
def wsAtPos (content : List Char) (k : Nat) : Bool :=
  match content[k]? with
  | some c => jsWs c
  | none => false

/-- The freshly initialized Message Store state: the result of
`initializeStorage` on empty storage — empty lists and both counters at 1. -/
def msInit : MSState :=
  ⟨some [], some [], .val ⟨some 1, some 1⟩, false, false, false⟩

/-- Three `storeSession` calls on the fresh store ("creating 3 sessions"). -/
def msThree : MSState :=
  (storeSession (storeSession (storeSession msInit ("a").data).2 ("b").data).2 ("c").data).2

/-- Then two `storeChat` calls that reuse session id 1 ("then 2 messages"). -/
def msThreeTwo : MSState :=
  (storeChat (storeChat msThree (some ⟨none, some (.num 1)⟩) ⟨none⟩ (.num 0) 7).2
    (some ⟨none, some (.num 1)⟩) ⟨none⟩ (.num 0) 8).2

/-- Whether a value is a JS number. -/
def isNumVal : JSVal → Bool
  | .num _ => true
  | .str _ => false

/-- Whether a call resolved (promise fulfilled / no exception). -/
def exceptOk {e a : Type} : Except e a → Bool
  | .ok _ => true
  | .error _ => false

/-- Whether a `storeChat` outcome is a rejection wrapped with the
"Failed to store chat message" message. -/
def isWrappedStoreChatErr : Except JSError MSMessage → Bool
  | .error (.wrappedStoreChat _) => true
  | _ => false

/-- The record `addMessage` stores: the generated defaults overridden by the
caller-supplied fields via object spread (part_005 lines 242-248). -/
def chStoredMessage (m : CHMessage) (sessionId : JSVal) (now : Nat) : CHMessage :=
  { id := some (m.id.getD (.str (natToChars now)))
    timestamp := some (m.timestamp.getD now)
    createdAt := some (m.createdAt.getD now)
    sessionId := some (m.sessionId.getD sessionId)
    content := m.content
    text := m.text }

/-- Decidable equality of call outcomes, for evaluating concrete runs. -/
instance exceptDecEq {e a : Type} [DecidableEq e] [DecidableEq a] :
    DecidableEq (Except e a) := fun x y =>
  match x, y with
  | .ok a1, .ok a2 => decidable_of_iff (a1 = a2) (by simp)
  | .error e1, .error e2 => decidable_of_iff (e1 = e2) (by simp)
  | .ok _, .error _ => isFalse (fun h => Except.noConfusion h)
  | .error _, .ok _ => isFalse (fun h => Except.noConfusion h)

/-! ## Helper lemmas -/

theorem kvGet_kvSet {α : Type} (l : List (List Char × α)) (k : List Char) (v : α) :
    kvGet (kvSet l k v) k = some v := by
  induction l with
  | nil => simp [kvGet, kvSet]
  | cons p rest ih =>
    by_cases h : p.1 = k
    · simp [kvSet, kvGet, h]
    · have hb : (p.1 == k) = false := beq_false_of_ne h
      simp only [kvSet, hb, Bool.false_eq_true, if_false]
      unfold kvGet
      rw [List.find?_cons_of_neg _ (by simp [hb])]
      exact ih

theorem startsWithChars_iff (n h : List Char) :
    startsWithChars h n = true ↔ ∃ t, h = n ++ t := by
  induction n generalizing h with
  | nil => simp [startsWithChars]
  | cons d ds ih =>
    cases h with
    | nil =>
      simp [startsWithChars]
    | cons c cs =>
      simp only [startsWithChars, Bool.and_eq_true, beq_iff_eq, ih, List.cons_append,
        List.cons.injEq]
      constructor
      · rintro ⟨rfl, t, rfl⟩; exact ⟨t, rfl, rfl⟩
      · rintro ⟨t, rfl, rfl⟩; exact ⟨rfl, t, rfl⟩

theorem includesChars_iff (h n : List Char) :
    includesChars h n = true ↔ ∃ p q, h = p ++ n ++ q := by
  induction h with
  | nil =>
    simp only [includesChars, startsWithChars_iff]
    constructor
    · rintro ⟨t, ht⟩
      rcases List.append_eq_nil.mp ht.symm with ⟨rfl, rfl⟩
      exact ⟨[], [], rfl⟩
    · rintro ⟨p, q, hpq⟩
      rcases List.append_eq_nil.mp (List.append_eq_nil.mp hpq.symm).1 with ⟨rfl, rfl⟩
      exact ⟨q, hpq⟩
  | cons c t ih =>
    simp only [includesChars, Bool.or_eq_true, startsWithChars_iff, ih]
    constructor
    · rintro (⟨q, hq⟩ | ⟨p, q, hpq⟩)
      · exact ⟨[], q, by simpa using hq⟩
      · exact ⟨c :: p, q, by simp [hpq]⟩
    · rintro ⟨p, q, hpq⟩
      cases p with
      | nil => exact Or.inl ⟨q, by simpa using hpq⟩
      | cons x xs =>
        rcases List.cons.injEq .. ▸ hpq with ⟨rfl, htl⟩
        exact Or.inr ⟨xs, q, by simpa using hpq⟩

theorem sortCheckpointsDesc_total :
    ∀ a b : Checkpoint, Checkpoint.timestamp b ≤ Checkpoint.timestamp a ∨
      Checkpoint.timestamp a ≤ Checkpoint.timestamp b :=
  fun a b => Nat.le_total b.timestamp a.timestamp

theorem sortCheckpointsDesc_head (l : List Checkpoint) (c : Checkpoint)
    (hc : c ∈ l) (hmax : ∀ c' ∈ l, c' ≠ c → c'.timestamp < c.timestamp) :
    (sortCheckpointsDesc l)[0]? = some c := by
  haveI : IsTotal Checkpoint (fun a b => Checkpoint.timestamp b ≤ Checkpoint.timestamp a) :=
    ⟨sortCheckpointsDesc_total⟩
  haveI : IsTrans Checkpoint (fun a b => Checkpoint.timestamp b ≤ Checkpoint.timestamp a) :=
    ⟨fun _ _ _ hab hbc => Nat.le_trans hbc hab⟩
  have hsorted : List.Sorted (fun a b => Checkpoint.timestamp b ≤ Checkpoint.timestamp a)
      (sortCheckpointsDesc l) :=
    List.sorted_insertionSort (fun a b => Checkpoint.timestamp b ≤ Checkpoint.timestamp a) l
  have hmem : ∀ x : Checkpoint, x ∈ sortCheckpointsDesc l ↔ x ∈ l := fun x =>
    List.mem_insertionSort (fun a b => Checkpoint.timestamp b ≤ Checkpoint.timestamp a)
  rcases hs : sortCheckpointsDesc l with _ | ⟨h, t⟩
  · exfalso
    have hcs := (hmem c).mpr hc
    rw [hs] at hcs
    exact absurd hcs (List.not_mem_nil c)
  · rw [hs] at hsorted
    have hh : h ∈ l := (hmem h).mp (by rw [hs]; exact List.mem_cons_self h t)
    by_cases hch : c = h
    · simp [hch]
    · have hct : c ∈ t := by
        have hcs := (hmem c).mpr hc
        rw [hs] at hcs
        rcases List.mem_cons.mp hcs with h1 | h1
        · exact absurd h1 hch
        · exact h1
      have hle : c.timestamp ≤ h.timestamp := List.rel_of_sorted_cons hsorted c hct
      have hlt : h.timestamp < c.timestamp := hmax h hh (fun he => hch (he ▸ rfl))
      exact absurd hle (Nat.not_le_of_lt hlt)

/-- Claim C2: for every session whose stored checkpoint list is non-empty,
`retrieveCheckpoint` called with the integer 0 and that session id returns
the most-recently-created checkpoint of that session — the one whose
timestamp is strictly greater than every other entry's (the spec invariant
says timestamps strictly increase with creation order within a session) —
regardless of the insertion order of the underlying stored list. -/
theorem retrieveCheckpoint_zero_newest (st : CPState) (sessionId : JSVal)
    (ht : jsTruthy sessionId = true) (c : Checkpoint)
    (hc : c ∈ cpGetCheckpoints st sessionId)
    (hmax : ∀ c' ∈ cpGetCheckpoints st sessionId, c' ≠ c →
      c'.timestamp < c.timestamp) :
    retrieveCheckpoint st (.num 0) sessionId = .ok (some c) := by
  unfold retrieveCheckpoint
  rw [ht]
  simp only [Bool.not_true, Bool.false_eq_true, if_false]
  rw [sortCheckpointsDesc_head (cpGetCheckpoints st sessionId) c hc hmax]

/-- Witness for C2 at a concrete state: three checkpoints stored out of
creation order (timestamps 10, 30, 20); index 0 returns the one with
timestamp 30. -/
theorem retrieveCheckpoint_zero_newest_witness :
    retrieveCheckpoint
      ⟨[(cpStorageKey (.str [Char.ofNat 115]),
        [⟨natToChars 1, [], none, ⟨none, .num 0⟩, 10, 10⟩,
         ⟨natToChars 3, [], none, ⟨none, .num 0⟩, 30, 30⟩,
         ⟨natToChars 2, [], none, ⟨none, .num 0⟩, 20, 20⟩])], []⟩
      (.num 0) (.str [Char.ofNat 115]) =
      .ok (some ⟨natToChars 3, [], none, ⟨none, .num 0⟩, 30, 30⟩) :=
  retrieveCheckpoint_zero_newest _ _ (by decide)
    ⟨natToChars 3, [], none, ⟨none, .num 0⟩, 30, 30⟩ (by decide) (by decide)

theorem looseEq_num_str (a : Nat) (s : List Char) (n : Nat)
    (hs : jsStrToNum? s = some n) : looseEq (.num a) (.str s) = (a == n) := by
  rw [show looseEq (.num a) (.str s) = (jsStrToNum? s == some a) from rfl, hs]
  by_cases h : a = n
  · subst h; simp
  · simp [h, Ne.symm h]

/-- Claim C9: `BrowserChatMessageStorage` id lookups use loose (coercing)
equality: querying `retrieveMessageById` with a string whose numeric value
is `n` finds the same message as querying with `n` itself, and
`retrieveMessagesBySession` likewise returns the same list for the string
and numeric forms of a session id, whenever the stored session ids are the
numeric ids this store allocates. -/
theorem looseIdLookup_string_num (st : MSState) (n : Nat) (s : List Char)
    (hs : jsStrToNum? s = some n) :
    (∀ msg : MSMessage, retrieveMessageById st (.str s) = .ok msg ↔
      retrieveMessageById st (.num n) = .ok msg) ∧
    ((∀ msg ∈ st.messages.getD [], isNumVal msg.sessionId = true) →
      retrieveMessagesBySession st (.str s) = retrieveMessagesBySession st (.num n)) := by
  constructor
  · intro msg
    have hpred : (fun msg : MSMessage => looseEq (.num msg.id) (.str s)) =
        (fun msg : MSMessage => looseEq (.num msg.id) (.num n)) := by
      funext m
      rw [looseEq_num_str m.id s n hs]
      rfl
    unfold retrieveMessageById
    rw [hpred]
    cases (st.messages.getD []).find? (fun m => looseEq (.num m.id) (.num n)) with
    | none => simp
    | some m => simp
  · intro hnum
    unfold retrieveMessagesBySession
    refine List.filter_congr ?_
    intro msg hmsg
    cases hv : msg.sessionId with
    | num k =>
      rw [looseEq_num_str k s n hs]
      rfl
    | str t =>
      have := hnum msg hmsg
      rw [hv] at this
      exact absurd this (by simp [isNumVal])

/-- Witness for C9: one stored message with id 5 in session 7; the queries
"5" and 5 agree, as do the session queries "7" and 7. -/
theorem looseIdLookup_string_num_witness :
    (retrieveMessageById
        ⟨some [], some [⟨5, .num 7, none, ⟨none⟩, .num 0, 0, 0⟩],
          .val ⟨some 1, some 1⟩, false, false, false⟩
        (.str (("5").data)) = .ok ⟨5, .num 7, none, ⟨none⟩, .num 0, 0, 0⟩ ↔
      retrieveMessageById
        ⟨some [], some [⟨5, .num 7, none, ⟨none⟩, .num 0, 0, 0⟩],
          .val ⟨some 1, some 1⟩, false, false, false⟩
        (.num 5) = .ok ⟨5, .num 7, none, ⟨none⟩, .num 0, 0, 0⟩) ∧
    retrieveMessagesBySession
        ⟨some [], some [⟨5, .num 7, none, ⟨none⟩, .num 0, 0, 0⟩],
          .val ⟨some 1, some 1⟩, false, false, false⟩
        (.str (("7").data)) =
      retrieveMessagesBySession
        ⟨some [], some [⟨5, .num 7, none, ⟨none⟩, .num 0, 0, 0⟩],
          .val ⟨some 1, some 1⟩, false, false, false⟩
        (.num 7) :=
  ⟨(looseIdLookup_string_num _ 5 (("5").data) (by decide)).1 _,
   (looseIdLookup_string_num _ 7 (("7").data) (by decide)).2 (by decide)⟩

/-- Claim C10 (counterexample): with the counters key holding unparseable
text, `getNextId` does not silently restart at 1 — `JSON.parse` throws and
the error propagates to the caller. -/
theorem getNextId_corrupt_counterexample :
    (getNextId ⟨some [], some [], .corrupt, false, false, false⟩ .sessionId).1 =
        .error .parseFailure ∧
      (getNextId ⟨some [], some [], .corrupt, false, false, false⟩ .sessionId).1 ≠
        .ok 1 := by
  decide

/-- Claim C10 (amended): if the counters record is absent or lacks the
requested field, `getNextId` silently restarts allocation — it returns 1 and
persists that counter as 2 (so earlier ids can be issued again); but if the
stored record is unparseable, the parse error propagates (to be wrapped by
the calling operation) and the key is left unchanged. -/
theorem getNextId_reset (st : MSState) (t : CounterType)
    (hf : st.failCountersWrite = false) :
    (st.counters = .absent →
      getNextId st t =
        (.ok 1, { st with counters := .val (MSCounters.set ⟨none, none⟩ t 2) })) ∧
    (∀ c, st.counters = .val c → c.get t = none →
      getNextId st t = (.ok 1, { st with counters := .val (c.set t 2) })) ∧
    (st.counters = .corrupt →
      (getNextId st t).1 = .error .parseFailure ∧ (getNextId st t).2 = st) := by
  refine ⟨?_, ?_, ?_⟩
  · intro h
    cases t <;> simp [getNextId, parseCounters, h, hf, counterOr1, MSCounters.get,
      MSCounters.set]
  · intro c h hget
    cases t <;> simp [getNextId, parseCounters, h, hf, hget, counterOr1]
  · intro h
    simp [getNextId, parseCounters, h]

/-- Witness for C10 at concrete states: an absent counters key and a record
lacking the `messageId` field both restart at 1 and persist 2. -/
theorem getNextId_reset_witness :
    getNextId ⟨some [], some [], .absent, false, false, false⟩ .sessionId =
      (.ok 1, ⟨some [], some [], .val ⟨some 2, none⟩, false, false, false⟩) ∧
    getNextId ⟨some [], some [], .val ⟨some 7, none⟩, false, false, false⟩ .messageId =
      (.ok 1, ⟨some [], some [], .val ⟨some 7, some 2⟩, false, false, false⟩) :=
  ⟨(getNextId_reset _ .sessionId rfl).1 rfl,
   (getNextId_reset _ .messageId rfl).2.1 ⟨some 7, none⟩ rfl rfl⟩

theorem chSaveMessages_sessions (st : CHState) (sessionId : JSVal)
    (messages : List CHMessage) :
    (chSaveMessages st sessionId messages).sessions = st.sessions := by
  unfold chSaveMessages
  split <;> rfl

theorem chSaveMessages_failSessionsWrite (st : CHState) (sessionId : JSVal)
    (messages : List CHMessage) :
    (chSaveMessages st sessionId messages).failSessionsWrite = st.failSessionsWrite := by
  unfold chSaveMessages
  split <;> rfl

theorem previewOf_eq (v : Option (List Char)) :
    previewOf v = (v.getD []).take 50 ++
      (if 50 ≤ (v.getD []).length then ("...").data else []) := by
  unfold previewOf
  by_cases h : 50 ≤ (v.getD []).length
  · have h50 : ((v.getD []).take 50).length = 50 := by
      rw [List.length_take]
      omega
    simp [h50, h]
  · have hlen : ((v.getD []).take 50).length = (v.getD []).length := by
      rw [List.length_take]
      omega
    have hne : ¬((v.getD []).take 50).length = 50 := by omega
    simp [hne, h]

/-- Claim C4 (counterexample): a message whose content is exactly 50
characters long is not truncated, yet the stored `previewText` still gets an
ellipsis appended (the code tests `preview.length === 50`, which also holds
without truncation). -/
theorem addMessage_preview_50_counterexample :
    ((addMessage
        ⟨some [⟨.str (("s").data), [], [], 0, 0, []⟩], [], false, []⟩
        (.str (("s").data))
        (some ⟨none, none, none, none, some (List.replicate 50 'x'), none⟩)
        99).2).sessions =
      some [⟨.str (("s").data), [], [], 99, 0,
        List.replicate 50 'x' ++ ("...").data⟩] ∧
    (List.replicate 50 'x').length = 50 := by
  decide

/-- Claim C4 (amended): after a successful `addMessage` whose session is
present in the stored list (and whose sessions-list write succeeds), the
session's `previewText` is the first 50 characters of `message.content ||
message.text`, with an ellipsis appended if and only if that text is at
least 50 characters long (not: strictly longer than 50). -/
theorem addMessage_previewText (st : CHState) (sessionId : JSVal)
    (m : CHMessage) (now : Nat) (ht : jsTruthy sessionId = true)
    (hf : st.failSessionsWrite = false) (i : Nat) (s : CHSession)
    (hidx : (st.sessions.getD []).findIdx? (fun s => s.id == sessionId) = some i)
    (hs : (st.sessions.getD [])[i]? = some s) :
    ((addMessage st sessionId (some m) now).2).sessions =
      some ((st.sessions.getD []).set i
        { s with
          lastActivity := now
          previewText :=
            ((strOrOpt m.content m.text).getD []).take 50 ++
              (if 50 ≤ ((strOrOpt m.content m.text).getD []).length
               then ("...").data else []) }) := by
  have hbody : (addMessage st sessionId (some m) now).2 =
      chUpdateSessionMetadata
        (chSaveMessages st sessionId
          (chGetMessages st sessionId ++ [chStoredMessage m sessionId now]))
        sessionId (strOrOpt m.content m.text) now := by
    unfold addMessage chStoredMessage
    rw [ht]
    rfl
  rw [hbody]
  simp only [chUpdateSessionMetadata, chSaveMessages_sessions,
    chSaveMessages_failSessionsWrite, hidx, hs, chSaveSessions, hf, previewOf_eq,
    Bool.false_eq_true, if_false]

/-- Witness for C4 (amended) at a concrete state: a 10-character content is
stored as the preview without an ellipsis. -/
theorem addMessage_previewText_witness :
    ((addMessage ⟨some [⟨.str (("s").data), [], [], 0, 0, []⟩], [], false, []⟩
        (.str (("s").data))
        (some ⟨none, none, none, none, some (List.replicate 10 'y'), none⟩)
        42).2).sessions =
      some [⟨.str (("s").data), [], [], 42, 0, List.replicate 10 'y'⟩] := by
  have h := addMessage_previewText
    ⟨some [⟨.str (("s").data), [], [], 0, 0, []⟩], [], false, []⟩
    (.str (("s").data))
    ⟨none, none, none, none, some (List.replicate 10 'y'), none⟩
    42 (by decide) rfl 0 ⟨.str (("s").data), [], [], 0, 0, []⟩ (by decide) (by decide)
  simpa using h

theorem chUpdateSessionMetadata_histories (st : CHState) (sessionId : JSVal)
    (lastMessageText : Option (List Char)) (now : Nat) :
    (chUpdateSessionMetadata st sessionId lastMessageText now).histories =
      st.histories := by
  simp only [chUpdateSessionMetadata]
  split
  · split
    · unfold chSaveSessions
      split <;> rfl
    · rfl
  · rfl

/-- Claim C8: in `addMessage`, caller-supplied fields override the generated
defaults via object spread: whenever the message object itself carries a
`sessionId` (resp. `id`, `timestamp`, `createdAt`) field, the stored record
keeps that value — not the `sessionId` parameter under whose storage key the
record is appended — while the record is still appended to the log of the
parameter's key. -/
theorem addMessage_spread (st : CHState) (sessionId : JSVal) (m : CHMessage)
    (now : Nat) (ht : jsTruthy sessionId = true) :
    (addMessage st sessionId (some m) now).1 =
        .ok (chStoredMessage m sessionId now) ∧
    (∀ v, m.sessionId = some v →
      (chStoredMessage m sessionId now).sessionId = some v) ∧
    (∀ v, m.id = some v → (chStoredMessage m sessionId now).id = some v) ∧
    (∀ v, m.timestamp = some v →
      (chStoredMessage m sessionId now).timestamp = some v) ∧
    (∀ v, m.createdAt = some v →
      (chStoredMessage m sessionId now).createdAt = some v) ∧
    (st.failHistoryWrites.contains (chSessionKey sessionId) = false →
      chGetMessages ((addMessage st sessionId (some m) now).2) sessionId =
        chGetMessages st sessionId ++ [chStoredMessage m sessionId now]) := by
  refine ⟨?_, ?_, ?_, ?_, ?_, ?_⟩
  · unfold addMessage chStoredMessage
    rw [ht]
    rfl
  · intro v hv; simp [chStoredMessage, hv]
  · intro v hv; simp [chStoredMessage, hv]
  · intro v hv; simp [chStoredMessage, hv]
  · intro v hv; simp [chStoredMessage, hv]
  · intro hw
    have hbody : (addMessage st sessionId (some m) now).2 =
        chUpdateSessionMetadata
          (chSaveMessages st sessionId
            (chGetMessages st sessionId ++ [chStoredMessage m sessionId now]))
          sessionId (strOrOpt m.content m.text) now := by
      unfold addMessage chStoredMessage
      rw [ht]
      rfl
    rw [hbody]
    unfold chGetMessages
    rw [chUpdateSessionMetadata_histories]
    unfold chSaveMessages
    rw [hw]
    simp [kvGet_kvSet]

/-- Witness for C8 at a concrete call: the message carries `sessionId 999`
while being appended under session "s"; the stored record keeps 999 and the
caller-supplied id/timestamp/createdAt survive. -/
theorem addMessage_spread_witness :
    (addMessage ⟨some [], [], false, []⟩ (.str (("s").data))
        (some ⟨some (.num 8), some 77, some 88, some (.num 999), none, none⟩)
        5).1 =
      .ok (chStoredMessage
        ⟨some (.num 8), some 77, some 88, some (.num 999), none, none⟩
        (.str (("s").data)) 5) ∧
    (chStoredMessage ⟨some (.num 8), some 77, some 88, some (.num 999), none, none⟩
      (.str (("s").data)) 5).sessionId = some (.num 999) ∧
    (chStoredMessage ⟨some (.num 8), some 77, some 88, some (.num 999), none, none⟩
      (.str (("s").data)) 5).id = some (.num 8) ∧
    chGetMessages
      ((addMessage ⟨some [], [], false, []⟩ (.str (("s").data))
          (some ⟨some (.num 8), some 77, some 88, some (.num 999), none, none⟩)
          5).2) (.str (("s").data)) =
      chGetMessages ⟨some [], [], false, []⟩ (.str (("s").data)) ++
        [chStoredMessage ⟨some (.num 8), some 77, some 88, some (.num 999), none, none⟩
          (.str (("s").data)) 5] := by
  obtain ⟨h1, h2, h3, _, _, h6⟩ := addMessage_spread ⟨some [], [], false, []⟩
    (.str (("s").data)) ⟨some (.num 8), some 77, some 88, some (.num 999), none, none⟩
    5 (by decide)
  exact ⟨h1, h2 _ rfl, h3 _ rfl, h6 (by decide)⟩

/-- Claim C7: `searchMessages` performs a case-insensitive substring match
against the `content`/`text` fields (`m.text || m.content || ''`) of every
message in the given session's log and returns exactly the matches, sorted
newest-first; for every session, an empty keyword yields an empty result. -/
theorem searchMessages_spec :
    (∀ (st : CHState) (sessionId : JSVal), jsTruthy sessionId = true →
      searchMessages st [] sessionId = .ok []) ∧
    (∀ (st : CHState) (keyword : List Char) (sessionId : JSVal),
      jsTruthy sessionId = true → keyword ≠ [] →
      (∀ m : CHMessage,
        m ∈ (searchMessages st keyword sessionId).toOption.getD [] ↔
          (m ∈ chGetMessages st sessionId ∧
            ∃ p q, lowerChars (strOr m.text (strOr m.content [])) =
              p ++ lowerChars keyword ++ q)) ∧
      ((searchMessages st keyword sessionId).toOption.getD []).Pairwise
        (fun a b => recencyKey b ≤ recencyKey a)) := by
  constructor
  · intro st sessionId ht
    simp [searchMessages, ht]
  · intro st keyword sessionId ht hkw
    haveI : IsTotal CHMessage (fun a b => recencyKey b ≤ recencyKey a) :=
      ⟨fun a b => Nat.le_total (recencyKey b) (recencyKey a)⟩
    haveI : IsTrans CHMessage (fun a b => recencyKey b ≤ recencyKey a) :=
      ⟨fun _ _ _ hab hbc => Nat.le_trans hbc hab⟩
    have hres : (searchMessages st keyword sessionId).toOption.getD [] =
        sortByRecencyDesc
          ((chGetMessages st sessionId).filter (searchPred (lowerChars keyword))) := by
      simp [searchMessages, ht, hkw, Except.toOption]
    rw [hres]
    constructor
    · intro m
      rw [show sortByRecencyDesc
          ((chGetMessages st sessionId).filter (searchPred (lowerChars keyword))) =
          List.insertionSort (fun a b => recencyKey b ≤ recencyKey a)
            ((chGetMessages st sessionId).filter (searchPred (lowerChars keyword)))
          from rfl]
      rw [List.mem_insertionSort, List.mem_filter]
      unfold searchPred
      rw [includesChars_iff]
    · exact List.sorted_insertionSort (fun a b => recencyKey b ≤ recencyKey a) _

/-- Witness for C7 at a concrete state: an empty keyword yields `[]`, and the
keyword "hello" finds the message whose content is "Hello World". -/
theorem searchMessages_spec_witness :
    searchMessages
        ⟨some [], [(chSessionKey (.str (("s").data)),
          [⟨some (.num 1), some 10, none, none, some (("Hello World").data), none⟩,
           ⟨some (.num 2), some 20, none, none, some (("nothing").data), none⟩])],
          false, []⟩
        [] (.str (("s").data)) = .ok [] ∧
    (⟨some (.num 1), some 10, none, none, some (("Hello World").data), none⟩ : CHMessage) ∈
      (searchMessages
        ⟨some [], [(chSessionKey (.str (("s").data)),
          [⟨some (.num 1), some 10, none, none, some (("Hello World").data), none⟩,
           ⟨some (.num 2), some 20, none, none, some (("nothing").data), none⟩])],
          false, []⟩
        (("hello").data) (.str (("s").data))).toOption.getD [] := by
  constructor
  · exact searchMessages_spec.1 _ _ (by decide)
  · exact ((searchMessages_spec.2 _ (("hello").data) _ (by decide) (by decide)).1 _).mpr
      ⟨by decide, [], (" world").data, by decide⟩

theorem MSCounters.set_set (c : MSCounters) (t : CounterType) (a b : Nat) :
    (c.set t a).set t b = c.set t b := by
  cases t <;> rfl

theorem MSCounters.get_set (c : MSCounters) (t : CounterType) (v : Nat) :
    (c.set t v).get t = some v := by
  cases t <;> rfl

theorem getNextIds_range (k : Nat) :
    ∀ (st : MSState) (c : MSCounters) (t : CounterType) (v : Nat),
    st.counters = .val c → c.get t = some v → v ≠ 0 → st.failCountersWrite = false →
    (getNextIds st t k).1 = .ok (List.range' v k) ∧
      ((getNextIds st t k).2).counters = .val (c.set t (v + k)) ∧
      ((getNextIds st t k).2).failCountersWrite = false := by
  induction k with
  | zero =>
    intro st c t v hc hget hv hf
    refine ⟨rfl, ?_, ?_⟩
    · have hcv : c.set t v = c := by
        cases c with
        | mk s m => cases t <;> simp_all [MSCounters.get, MSCounters.set]
      show st.counters = .val (c.set t (v + 0))
      rw [Nat.add_zero, hcv, hc]
    · exact hf
  | succ n ih =>
    intro st c t v hc hget hv hf
    have hg : getNextId st t =
        (.ok v, { st with counters := .val (c.set t (v + 1)) }) := by
      unfold getNextId
      rw [hc]
      show (match parseCounters (.val c) with
        | .error e => (Except.error e, st)
        | .ok c => _) = _
      unfold parseCounters
      simp only [hget, hf, counterOr1, Bool.false_eq_true, if_false]
      cases hvv : v with
      | zero => exact absurd hvv hv
      | succ w => rw [← hvv]; simp [hv]
    obtain ⟨ih1, ih2, ih3⟩ := ih { st with counters := .val (c.set t (v + 1)) }
      (c.set t (v + 1)) t (v + 1) rfl (MSCounters.get_set c t (v + 1))
      (Nat.succ_ne_zero v) hf
    rcases hres : getNextIds { st with counters := .val (c.set t (v + 1)) } t n
      with ⟨r1, r2⟩
    rw [hres] at ih1 ih2 ih3
    have hr1 : r1 = Except.ok (List.range' (v + 1) n) := ih1
    have hr2c : r2.counters =
        MSStoredCounters.val ((c.set t (v + 1)).set t (v + 1 + n)) := ih2
    have hr2f : r2.failCountersWrite = false := ih3
    subst hr1
    refine ⟨?_, ?_, ?_⟩
    · unfold getNextIds
      simp only [hg]
      simp only [hres]
      rw [List.range'_succ]
    · unfold getNextIds
      simp only [hg]
      simp only [hres]
      rw [hr2c, MSCounters.set_set]
      have harith : v + 1 + n = v + (n + 1) := by omega
      rw [harith]
    · unfold getNextIds
      simp only [hg]
      simp only [hres]
      exact hr2f

/-- Claim C5: within one `BrowserChatMessageStorage` instance, ids are
allocated by per-type counters that start at 1 on a freshly initialized
store, return the stored value and immediately persist its increment — so
`k` successive allocations from counter value `v` hand out the strictly
increasing ids `v, v+1, ..., v+k-1` and leave the counter at `v+k`; in
particular, on a fresh store, ids start at 1, and creating 3 sessions then
storing 2 messages leaves the counters record at
`{sessionId: 4, messageId: 3}`. -/
theorem ids_strictly_increasing :
    (∀ (st : MSState) (c : MSCounters) (t : CounterType) (v k : Nat),
      st.counters = .val c → c.get t = some v → v ≠ 0 →
      st.failCountersWrite = false →
      (getNextIds st t k).1 = .ok (List.range' v k) ∧
        ((getNextIds st t k).2).counters = .val (c.set t (v + k))) ∧
    initializeStorage ⟨none, none, .absent, false, false, false⟩ =
      (.ok (), msInit) ∧
    msThreeTwo.counters = .val ⟨some 4, some 3⟩ := by
  refine ⟨?_, ?_, ?_⟩
  · intro st c t v k hc hget hv hf
    exact ⟨(getNextIds_range k st c t v hc hget hv hf).1,
      (getNextIds_range k st c t v hc hget hv hf).2.1⟩
  · decide
  · decide

/-- Witness for C5: three allocations on the fresh store yield the ids
1, 2, 3 and leave the session counter at 4. -/
theorem ids_strictly_increasing_witness :
    (getNextIds msInit .sessionId 3).1 = .ok [1, 2, 3] ∧
    ((getNextIds msInit .sessionId 3).2).counters = .val ⟨some 4, some 1⟩ := by
  have h := ids_strictly_increasing.1 msInit ⟨some 1, some 1⟩ .sessionId 1 3
    rfl rfl (by decide) rfl
  exact ⟨by rw [h.1]; decide, by rw [h.2]; decide⟩

/-- Claim C6: `clearAllData` resets the store — sessions and messages back to
empty, both counters back at 1 — and an immediately following `storeChat`
with no supplied session id creates the session with id 1 and the message
with id 1. -/
theorem clearAllData_resets (st : MSState) (request : MSRequest)
    (response : JSVal) (now : Nat) (h1 : st.failSessionsWrite = false)
    (h2 : st.failMessagesWrite = false) (h3 : st.failCountersWrite = false) :
    clearAllData st = (.ok (),
      { st with sessions := some [], messages := some [],
                counters := .val ⟨some 1, some 1⟩ }) ∧
    (storeChat (clearAllData st).2 none request response now).1 =
      .ok ⟨1, .num 1, none, request, response, 0, now⟩ ∧
    ((storeChat (clearAllData st).2 none request response now).2).sessions =
      some [⟨1, msDerivedTitle request⟩] := by
  have hclear : clearAllData st = (.ok (),
      { st with sessions := some [], messages := some [],
                counters := .val ⟨some 1, some 1⟩ }) := by
    unfold clearAllData initializeStorage initMessages initCounters
    simp [h1, h2, h3]
  refine ⟨hclear, ?_, ?_⟩ <;>
    rw [hclear] <;>
    simp [storeChat, storeChatBody, msStoreMessage, msAutoCreate, storeSession,
      getNextId, parseCounters, counterOr1, MSCounters.get, MSCounters.set,
      h1, h2, h3, Option.bind]

/-- Witness for C6 on a concrete dirty store (the state after 3 sessions and
2 messages): clearing and storing again yields session id 1, message id 1. -/
theorem clearAllData_resets_witness :
    clearAllData msThreeTwo = (.ok (),
      { msThreeTwo with sessions := some [], messages := some [],
                        counters := .val ⟨some 1, some 1⟩ }) ∧
    (storeChat (clearAllData msThreeTwo).2 none
        ⟨some [⟨some (("hi there").data)⟩]⟩ (.num 0) 9).1 =
      .ok ⟨1, .num 1, none, ⟨some [⟨some (("hi there").data)⟩]⟩, .num 0, 0, 9⟩ ∧
    ((storeChat (clearAllData msThreeTwo).2 none
        ⟨some [⟨some (("hi there").data)⟩]⟩ (.num 0) 9).2).sessions =
      some [⟨1, msDerivedTitle ⟨some [⟨some (("hi there").data)⟩]⟩⟩] :=
  clearAllData_resets msThreeTwo ⟨some [⟨some (("hi there").data)⟩]⟩ (.num 0) 9
    (by decide) (by decide) (by decide)

theorem getNextId_mm (st : MSState) (t : CounterType) :
    ((getNextId st t).2).messages = st.messages ∧
      ((getNextId st t).2).failMessagesWrite = st.failMessagesWrite := by
  unfold getNextId
  split
  · exact ⟨rfl, rfl⟩
  · split
    · exact ⟨rfl, rfl⟩
    · exact ⟨rfl, rfl⟩

theorem storeSession_mm (st : MSState) (title : List Char) :
    ((storeSession st title).2).messages = st.messages ∧
      ((storeSession st title).2).failMessagesWrite = st.failMessagesWrite := by
  obtain ⟨hm, hf⟩ := getNextId_mm st .sessionId
  unfold storeSession
  rcases hg : getNextId st .sessionId with ⟨e | id, st'⟩
  · rw [hg] at hm hf
    simp only [hg]
    exact ⟨hm, hf⟩
  · rw [hg] at hm hf
    simp only [hg]
    split
    · exact ⟨hm, hf⟩
    · exact ⟨hm, hf⟩

theorem msAutoCreate_mm (st : MSState) (request : MSRequest) :
    ((msAutoCreate st request).2).messages = st.messages ∧
      ((msAutoCreate st request).2).failMessagesWrite = st.failMessagesWrite := by
  obtain ⟨hm, hf⟩ := storeSession_mm st (msDerivedTitle request)
  unfold msAutoCreate
  rcases hg : storeSession st (msDerivedTitle request) with ⟨e | session, st'⟩ <;>
    rw [hg] at hm hf <;> simp only [hg] <;> exact ⟨hm, hf⟩

theorem msStoreMessage_msgfail (st : MSState) (sessionId : JSVal)
    (currentMessage : Option MSCurrentMessage) (request : MSRequest)
    (response : JSVal) (now : Nat) (hfm : st.failMessagesWrite = true) :
    (∃ e, (msStoreMessage st sessionId currentMessage request response now).1 =
      .error e) ∧
    ((msStoreMessage st sessionId currentMessage request response now).2).messages =
      st.messages := by
  unfold msStoreMessage
  rcases hg : getNextId st .messageId with ⟨e | mid, st'⟩
  · obtain ⟨hm, _⟩ := getNextId_mm st .messageId
    rw [hg] at hm
    simp only [hg]
    exact ⟨⟨e, rfl⟩, hm⟩
  · obtain ⟨hm, hf⟩ := getNextId_mm st .messageId
    rw [hg] at hm hf
    rw [hfm] at hf
    simp only [hg]
    rw [if_pos hf]
    exact ⟨⟨.quotaExceeded, rfl⟩, hm⟩

theorem storeChatBody_msgfail (st : MSState)
    (currentMessage : Option MSCurrentMessage) (request : MSRequest)
    (response : JSVal) (now : Nat) (hfm : st.failMessagesWrite = true) :
    (∃ e, (storeChatBody st currentMessage request response now).1 = .error e) ∧
    ((storeChatBody st currentMessage request response now).2).messages =
      st.messages := by
  unfold storeChatBody
  have hauto : ∀ (sid : JSVal) (st' : MSState),
      st'.messages = st.messages → st'.failMessagesWrite = true →
      (∃ e, (msStoreMessage st' sid currentMessage request response now).1 =
        .error e) ∧
      ((msStoreMessage st' sid currentMessage request response now).2).messages =
        st.messages := by
    intro sid st' hm hf
    obtain ⟨he, hmm⟩ := msStoreMessage_msgfail st' sid currentMessage request
      response now hf
    exact ⟨he, hmm.trans hm⟩
  rcases hcm : currentMessage.bind (·.sessionId) with _ | v
  · rcases ha : msAutoCreate st request with ⟨e | sid, st'⟩
    · obtain ⟨hm, _⟩ := msAutoCreate_mm st request
      rw [ha] at hm
      simp only [ha]
      exact ⟨⟨e, rfl⟩, hm⟩
    · obtain ⟨hm, hf⟩ := msAutoCreate_mm st request
      rw [ha] at hm hf
      rw [hfm] at hf
      simp only [ha]
      exact hauto sid st' hm hf
  · by_cases hv : jsTruthy v = true
    · simp only [hcm, hv, if_true]
      exact hauto v st rfl hfm
    · have hv' : jsTruthy v = false := by
        cases hvv : jsTruthy v
        · rfl
        · exact absurd hvv hv
      simp only [hcm, hv', Bool.false_eq_true, if_false]
      rcases ha : msAutoCreate st request with ⟨e | sid, st'⟩
      · obtain ⟨hm, _⟩ := msAutoCreate_mm st request
        rw [ha] at hm
        simp only [ha]
        exact ⟨⟨e, rfl⟩, hm⟩
      · obtain ⟨hm, hf⟩ := msAutoCreate_mm st request
        rw [ha] at hm hf
        rw [hfm] at hf
        simp only [ha]
        exact hauto sid st' hm hf

theorem chUpdateSessionMetadata_fail (st : CHState) (sessionId : JSVal)
    (lastMessageText : Option (List Char)) (now : Nat)
    (hf : st.failSessionsWrite = true) :
    chUpdateSessionMetadata st sessionId lastMessageText now = st := by
  simp only [chUpdateSessionMetadata]
  split
  · split
    · unfold chSaveSessions
      rw [hf]
      rfl
    · rfl
  · rfl

/-- Claim C1 (counterexample): in `BrowserCheckpointService.createCheckpoint`
a failing storage write is NOT wrapped and surfaced — `_saveCheckpoints`
catches it and only logs, so the call still resolves with the new checkpoint
while the stored state keeps its pre-call value.  This contradicts the claim
that for every mutating operation of every service a write failure is
surfaced to the caller. -/
theorem createCheckpoint_swallow_counterexample :
    (createCheckpoint
        ⟨[(cpStorageKey (.str (("s").data)),
           [⟨natToChars 1, ("L1").data, none, ⟨none, .num 0⟩, 10, 10⟩])],
         [cpStorageKey (.str (("s").data))]⟩
        (("L2").data) (some ⟨none, .num 7⟩) (.str (("s").data)) 42).1 =
      .ok ⟨natToChars 42, ("L2").data, none, ⟨none, .num 7⟩, 42, 42⟩ ∧
    (createCheckpoint
        ⟨[(cpStorageKey (.str (("s").data)),
           [⟨natToChars 1, ("L1").data, none, ⟨none, .num 0⟩, 10, 10⟩])],
         [cpStorageKey (.str (("s").data))]⟩
        (("L2").data) (some ⟨none, .num 7⟩) (.str (("s").data)) 42).2 =
      ⟨[(cpStorageKey (.str (("s").data)),
         [⟨natToChars 1, ("L1").data, none, ⟨none, .num 0⟩, 10, 10⟩])],
       [cpStorageKey (.str (("s").data))]⟩ := by
  decide

/-- Claim C1 (amended): an individual failed write always leaves its key at
the pre-call value, but write failures are wrapped and surfaced only by
`BrowserChatMessageStorage`; `BrowserCheckpointService`,
`BrowserChatHistoryService` and `BrowserAgentStateStorage` catch write
failures and only log them — the call still reports success and the failed
key keeps its pre-call value (earlier writes of a multi-key operation, such
as the counters bump inside `storeChat`, may already have been committed). -/
theorem writeFailure_handling (st1 : CPState) (label : List Char)
    (cm : CPMessage) (sessionId1 : JSVal) (now1 : Nat)
    (st2 : CHState) (sessionId2 : JSVal) (m : CHMessage) (now2 : Nat)
    (st3 : AGState) (cp : NamedAgentCheckpoint) (now3 : Nat)
    (st4 : MSState) (currentMessage : Option MSCurrentMessage)
    (request : MSRequest) (response : JSVal) (now4 : Nat)
    (ht1 : jsTruthy sessionId1 = true)
    (hw1 : st1.failWrites.contains (cpStorageKey sessionId1) = true)
    (ht2 : jsTruthy sessionId2 = true)
    (hw2 : st2.failHistoryWrites.contains (chSessionKey sessionId2) = true)
    (hw2s : st2.failSessionsWrite = true)
    (hw3 : st3.failWrite = true)
    (hw4 : st4.failMessagesWrite = true) :
    (exceptOk (createCheckpoint st1 label (some cm) sessionId1 now1).1 = true ∧
      (createCheckpoint st1 label (some cm) sessionId1 now1).2 = st1) ∧
    (exceptOk (addMessage st2 sessionId2 (some m) now2).1 = true ∧
      (addMessage st2 sessionId2 (some m) now2).2 = st2) ∧
    (exceptOk (agStoreCheckpoint st3 cp now3).1 = true ∧
      (agStoreCheckpoint st3 cp now3).2 = st3) ∧
    (isWrappedStoreChatErr (storeChat st4 currentMessage request response now4).1 =
        true ∧
      ((storeChat st4 currentMessage request response now4).2).messages =
        st4.messages) := by
  refine ⟨⟨?_, ?_⟩, ⟨?_, ?_⟩, ⟨?_, ?_⟩, ?_, ?_⟩
  · simp [createCheckpoint, ht1, cpSaveCheckpoints, hw1, exceptOk]
  · simp only [createCheckpoint, ht1, Bool.not_true, Bool.false_eq_true, if_false]
    unfold cpSaveCheckpoints
    rw [if_pos hw1]
  · simp [addMessage, ht2, exceptOk]
  · have hsave : chSaveMessages st2 sessionId2
        (chGetMessages st2 sessionId2 ++ [chStoredMessage m sessionId2 now2]) = st2 := by
      unfold chSaveMessages
      rw [hw2]
      rfl
    have hbody : (addMessage st2 sessionId2 (some m) now2).2 =
        chUpdateSessionMetadata
          (chSaveMessages st2 sessionId2
            (chGetMessages st2 sessionId2 ++ [chStoredMessage m sessionId2 now2]))
          sessionId2 (strOrOpt m.content m.text) now2 := by
      unfold addMessage chStoredMessage
      rw [ht2]
      rfl
    rw [hbody, hsave, chUpdateSessionMetadata_fail st2 sessionId2 _ now2 hw2s]
  · simp [agStoreCheckpoint, exceptOk]
  · simp [agStoreCheckpoint, agSaveAll, hw3]
  · obtain ⟨⟨e, he⟩, _⟩ := storeChatBody_msgfail st4 currentMessage request
      response now4 hw4
    unfold storeChat
    rcases hb : storeChatBody st4 currentMessage request response now4
      with ⟨r1, r2⟩
    rw [hb] at he
    have hr1 : r1 = .error e := he
    subst hr1
    simp [isWrappedStoreChatErr]
  · obtain ⟨⟨e, he⟩, hmm⟩ := storeChatBody_msgfail st4 currentMessage request
      response now4 hw4
    unfold storeChat
    rcases hb : storeChatBody st4 currentMessage request response now4
      with ⟨r1, r2⟩
    rw [hb] at he hmm
    have hr1 : r1 = .error e := he
    subst hr1
    exact hmm

/-- Witness for C1 (amended) at concrete states with the relevant write
failures enabled. -/
theorem writeFailure_handling_witness :
    (exceptOk (createCheckpoint
        ⟨[], [cpStorageKey (.str (("a").data))]⟩
        [] (some ⟨none, .num 1⟩) (.str (("a").data)) 5).1 = true ∧
      (createCheckpoint ⟨[], [cpStorageKey (.str (("a").data))]⟩
        [] (some ⟨none, .num 1⟩) (.str (("a").data)) 5).2 =
        ⟨[], [cpStorageKey (.str (("a").data))]⟩) ∧
    (exceptOk (addMessage ⟨some [], [], true, [chSessionKey (.str (("a").data))]⟩
        (.str (("a").data)) (some ⟨none, none, none, none, none, none⟩) 5).1 = true ∧
      (addMessage ⟨some [], [], true, [chSessionKey (.str (("a").data))]⟩
        (.str (("a").data)) (some ⟨none, none, none, none, none, none⟩) 5).2 =
        ⟨some [], [], true, [chSessionKey (.str (("a").data))]⟩) ∧
    (exceptOk (agStoreCheckpoint ⟨some [], true⟩ ⟨("ag").data, [], .num 0, none⟩ 5).1 =
        true ∧
      (agStoreCheckpoint ⟨some [], true⟩ ⟨("ag").data, [], .num 0, none⟩ 5).2 =
        ⟨some [], true⟩) ∧
    (isWrappedStoreChatErr (storeChat
        ⟨some [], some [], .val ⟨some 1, some 1⟩, false, true, false⟩
        (some ⟨none, some (.num 3)⟩) ⟨none⟩ (.num 0) 5).1 = true ∧
      ((storeChat ⟨some [], some [], .val ⟨some 1, some 1⟩, false, true, false⟩
        (some ⟨none, some (.num 3)⟩) ⟨none⟩ (.num 0) 5).2).messages = some []) :=
  writeFailure_handling
    ⟨[], [cpStorageKey (.str (("a").data))]⟩ [] ⟨none, .num 1⟩ (.str (("a").data)) 5
    ⟨some [], [], true, [chSessionKey (.str (("a").data))]⟩ (.str (("a").data))
    ⟨none, none, none, none, none, none⟩ 5
    ⟨some [], true⟩ ⟨("ag").data, [], .num 0, none⟩ 5
    ⟨some [], some [], .val ⟨some 1, some 1⟩, false, true, false⟩
    (some ⟨none, some (.num 3)⟩) ⟨none⟩ (.num 0) 5
    (by decide) (by decide) (by decide) (by decide) rfl rfl rfl

theorem titleTailMatch_none {content : List Char} {j : Nat}
    (hj : j < content.length) (hw : wsAtPos content j = false) :
    titleTailMatch content j = none := by
  rcases hd : content.drop j with _ | ⟨c, rest⟩
  · exact absurd (List.drop_eq_nil_iff.mp hd) (by omega)
  · have hget : content[j]? = some c := by
      rw [← List.head?_drop, hd]
      rfl
    unfold wsAtPos at hw
    rw [hget] at hw
    unfold titleTailMatch
    rw [hd]
    simp [show jsWs c = false from hw]

theorem titleTailMatch_ws {content : List Char} {j : Nat} {c : Char}
    (hD : ∀ x ∈ content, jsDot x = true)
    (hget : content[j]? = some c) (hw : jsWs c = true) :
    titleTailMatch content j = some content.length := by
  have hj : j < content.length := by
    rcases Nat.lt_or_ge j content.length with h | h
    · exact h
    · rw [List.getElem?_eq_none h] at hget
      cases hget
  have hc : content[j] = c := by
    have := List.getElem?_eq_getElem hj
    rw [hget] at this
    exact (Option.some.injEq .. ▸ this).symm
  have hd : content.drop j = c :: content.drop (j + 1) := by
    rw [List.drop_eq_getElem_cons hj, hc]
  have htw : (content.drop (j + 1)).takeWhile jsDot = content.drop (j + 1) :=
    List.takeWhile_eq_self_iff.mpr (fun x hx => hD x (List.mem_of_mem_drop hx))
  unfold titleTailMatch
  rw [hd]
  simp only [hw, if_true, htw, List.length_drop]
  congr 1
  omega

theorem titleMatchFrom_none (content : List Char) :
    ∀ n, (∀ j, 1 ≤ j → j ≤ n → titleTailMatch content j = none) →
    titleMatchFrom content n = none := by
  intro n
  induction n with
  | zero => intro _; rfl
  | succ m ih =>
    intro h
    unfold titleMatchFrom
    rw [h (m + 1) (by omega) (by omega)]
    exact ih (fun j h1 h2 => h j h1 (by omega))

theorem titleMatchFrom_found (content : List Char) (k e : Nat) :
    ∀ n, k ≤ n → 1 ≤ k → titleTailMatch content k = some e →
    (∀ j, k < j → j ≤ n → titleTailMatch content j = none) →
    titleMatchFrom content n = some (k, e) := by
  intro n
  induction n with
  | zero => intro hkn hk1 _ _; omega
  | succ m ih =>
    intro hkn hk1 htm hnone
    by_cases hke : k = m + 1
    · subst hke
      unfold titleMatchFrom
      rw [htm]
    · unfold titleMatchFrom
      rw [hnone (m + 1) (by omega) (by omega)]
      exact ih (by omega) hk1 htm (fun j h1 h2 => hnone j h1 (by omega))

set_option maxRecDepth 4000 in
/-- Claim C3 (counterexample): a 150-character single word (no whitespace)
makes the title regex `^(.{1,100})(\s.*|$)` fail to match, so `replace`
returns the content unchanged — `storeChat` stores a 150-character session
title, not one truncated at a word boundary at or before 100 characters. -/
theorem storeChat_title_counterexample :
    ((storeChat msInit none ⟨some [⟨some (List.replicate 150 'a')⟩]⟩
        (.num 0) 5).2).sessions =
      some [⟨1, List.replicate 150 'a'⟩] ∧
    (List.replicate 150 'a').length = 150 := by
  constructor
  · decide
  · decide

/-- Claim C3 (amended): with no supplied session id, `storeChat` derives the
session title by replacing the first match of `^(.{1,100})(\s.*|$)` with its
first group ("New Chat" when `request.messages` is empty or absent).  For
newline-free content this means: content of length ≤ 100 is kept whole;
longer content is cut at the LAST whitespace position ≤ 100 (everything from
that whitespace on is discarded); and longer content with no whitespace at
positions 1..100 is kept whole — not hard-cut at 100. -/
theorem storeChat_title_rule :
    (∀ (content : List Char) (response : JSVal) (now : Nat),
      ((storeChat msInit none ⟨some [⟨some content⟩]⟩ response now).2).sessions =
        some [⟨1, deriveTitle content⟩]) ∧
    (∀ (response : JSVal) (now : Nat),
      ((storeChat msInit none ⟨none⟩ response now).2).sessions =
        some [⟨1, ("New Chat").data⟩]) ∧
    (∀ content : List Char, (∀ c ∈ content, jsDot c = true) →
      content.length ≤ 100 → deriveTitle content = content) ∧
    (∀ content : List Char, (∀ c ∈ content, jsDot c = true) →
      100 < content.length →
      (∀ j, 1 ≤ j → j ≤ 100 → wsAtPos content j = false) →
      deriveTitle content = content) ∧
    (∀ (content : List Char) (k : Nat), (∀ c ∈ content, jsDot c = true) →
      100 < content.length → 1 ≤ k → k ≤ 100 → wsAtPos content k = true →
      (∀ j, k < j → j ≤ 100 → wsAtPos content j = false) →
      deriveTitle content = content.take k) := by
  refine ⟨?_, ?_, ?_, ?_, ?_⟩
  · intro content response now
    simp [storeChat, storeChatBody, msAutoCreate, msDerivedTitle, storeSession,
      msStoreMessage, getNextId, parseCounters, counterOr1, MSCounters.get,
      MSCounters.set, msInit, Option.bind]
  · intro response now
    simp [storeChat, storeChatBody, msAutoCreate, msDerivedTitle, storeSession,
      msStoreMessage, getNextId, parseCounters, counterOr1, MSCounters.get,
      MSCounters.set, msInit, Option.bind]
  · intro content hD hlen
    have htw : content.takeWhile jsDot = content :=
      List.takeWhile_eq_self_iff.mpr hD
    rcases hnil : content.length with _ | m
    · rw [List.length_eq_zero.mp hnil]
      rfl
    · have hmin : min 100 (content.takeWhile jsDot).length = content.length := by
        rw [htw]
        omega
      have htm : titleTailMatch content content.length = some content.length := by
        unfold titleTailMatch
        rw [List.drop_length]
      have hfound : titleMatchFrom content content.length =
          some (content.length, content.length) :=
        titleMatchFrom_found content content.length content.length content.length
          (Nat.le_refl _) (by omega) htm (fun j h1 h2 => by omega)
      unfold deriveTitle
      rw [hmin, hfound]
      simp [List.take_length, List.drop_length]
  · intro content hD hlen hnone
    have htw : content.takeWhile jsDot = content :=
      List.takeWhile_eq_self_iff.mpr hD
    have hmin : min 100 (content.takeWhile jsDot).length = 100 := by
      rw [htw]
      omega
    have hnf : titleMatchFrom content 100 = none :=
      titleMatchFrom_none content 100
        (fun j h1 h2 => titleTailMatch_none (by omega) (hnone j h1 h2))
    unfold deriveTitle
    rw [hmin, hnf]
  · intro content k hD hlen hk1 hk100 hws hnone
    have htw : content.takeWhile jsDot = content :=
      List.takeWhile_eq_self_iff.mpr hD
    have hmin : min 100 (content.takeWhile jsDot).length = 100 := by
      rw [htw]
      omega
    obtain ⟨c, hgc, hwc⟩ : ∃ c, content[k]? = some c ∧ jsWs c = true := by
      unfold wsAtPos at hws
      rcases hg : content[k]? with _ | c
      · rw [hg] at hws
        cases hws
      · rw [hg] at hws
        exact ⟨c, rfl, hws⟩
    have htm : titleTailMatch content k = some content.length :=
      titleTailMatch_ws hD hgc hwc
    have hfound : titleMatchFrom content 100 = some (k, content.length) :=
      titleMatchFrom_found content k content.length 100 hk100 hk1 htm
        (fun j h1 h2 => titleTailMatch_none (by omega) (hnone j h1 h2))
    unfold deriveTitle
    rw [hmin, hfound]
    simp [List.drop_length]

/-- Witness for C3 (amended): 100 x's, a space, then "tail" — the title is
cut at the space (position 100), keeping exactly the 100 x's; and a short
two-word content is kept whole. -/
theorem storeChat_title_rule_witness :
    deriveTitle (List.replicate 100 'x' ++ (" tail").data) =
      List.replicate 100 'x' ∧
    deriveTitle (("ab cd").data) = ("ab cd").data ∧
    ((storeChat msInit none ⟨some [⟨some (("ab cd").data)⟩]⟩ (.num 0) 5).2).sessions =
      some [⟨1, deriveTitle (("ab cd").data)⟩] := by
  refine ⟨?_, ?_, ?_⟩
  · have h := storeChat_title_rule.2.2.2.2 (List.replicate 100 'x' ++ (" tail").data)
      100 (by decide) (by decide) (by decide) (by decide) (by decide)
      (fun j h1 h2 => by interval_cases j)
    rw [h]
    decide
  · exact storeChat_title_rule.2.2.1 (("ab cd").data) (by decide) (by decide)
  · exact storeChat_title_rule.1 (("ab cd").data) (.num 0) 5
